import Mathlib

/-!
Verification of the core pipeline of the Belize rainfall bar chart
(`script.js`): CSV cell coercion, per-district averaging, the descending
stable sort, the d3 linear value scale, the render / tear-down life cycle
of the SVG surface, and the SVG / JPG export paths.

Numbers are modelled as rationals; a JS `NaN` produced by `d3.max` on an
empty list (and the attribute values computed from it) is modelled as
`Option.none`.
-/

namespace Rainfall

/-- One parsed CSV row: the `District` column and the twelve monthly cells
`Jan..Dec`, each either a parsed number or missing / non-numeric (`none`,
the model of a cell on which the JS coercion `+d[m]` yields `NaN`). -/
structure RawRecord where
  district : String
  months : Fin 12 → Option ℚ

/-- The JS coercion `+d[m] || 0` (script.js line 46): a missing or
non-numeric cell becomes `0`, a numeric cell keeps its value (the `|| 0`
also maps a literal `0` to `0`, so on numbers it is the identity). -/
def coerceMonth (v : Option ℚ) : ℚ := v.getD 0

/-- The iteration order of the `months` array
`["Jan", ..., "Dec"]` (script.js line 39), one index per month name. -/
def monthsIdx : List (Fin 12) := List.finRange 12

theorem monthsIdx_eq : monthsIdx = [0, 1, 2, 3, 4, 5, 6, 7, 8, 9, 10, 11] := by decide

/-- One element of `yearlyAverages`, shaped `{ district, average }`
(script.js lines 55-58). -/
structure AggregatedEntry where
  district : String
  average : ℚ
deriving DecidableEq

/-- The body of the `data.map(district => ...)` callback (script.js lines
52-58): sum the twelve coerced monthly cells with `reduce` and divide by
`months.length`. -/
def toEntry (r : RawRecord) : AggregatedEntry :=
  let totalRainfall := monthsIdx.foldl (fun sum m => sum + coerceMonth (r.months m)) 0
  { district := r.district, average := totalRainfall / (monthsIdx.length : ℚ) }

/-- One insertion step of a stable descending-by-average sort: the new
entry passes every already-placed entry whose average is at least as
large (so ties keep first-inserted-first order) and lands before the
first strictly smaller one. -/
def insertEntry : List AggregatedEntry → AggregatedEntry → List AggregatedEntry
  | [], e => [e]
  | x :: xs, e => if x.average < e.average then e :: x :: xs else x :: insertEntry xs e

/-- Model of `.sort((a, b) => b.average - a.average)` (script.js line 60).
`Array.prototype.sort` is specified to be stable and, for a consistent
comparator, to order any two elements `a` before `b` exactly when
`b.average - a.average <= 0` holds of the pair in that order; a stable
sort agreeing with a total preorder is unique as a permutation, so this
left-to-right stable insertion sort is extensionally the JS sort. -/
def sortDescStable (l : List AggregatedEntry) : List AggregatedEntry :=
  l.foldl insertEntry []

/-- The array `yearlyAverages` (script.js lines 52-60): map every CSV row
to its entry, then sort descending by average. -/
def yearlyAverages (data : List RawRecord) : List AggregatedEntry :=
  sortDescStable (data.map toEntry)

/-- Non-increasing averages, the order produced by the comparator
`(a, b) => b.average - a.average`. -/
def SortedByAverageDesc (l : List AggregatedEntry) : Prop :=
  l.Pairwise (fun a b => b.average ≤ a.average)

theorem mem_insertEntry {l : List AggregatedEntry} {e a : AggregatedEntry} :
    a ∈ insertEntry l e ↔ a ∈ l ∨ a = e := by
  induction l with
  | nil => simp [insertEntry]
  | cons x xs ih =>
    by_cases h : x.average < e.average
    · simp [insertEntry, h, or_comm, or_assoc, or_left_comm]
    · simp [insertEntry, h, ih, or_assoc]

theorem sortedByAverageDesc_insertEntry {l : List AggregatedEntry}
    (hs : SortedByAverageDesc l) (e : AggregatedEntry) :
    SortedByAverageDesc (insertEntry l e) := by
  induction l with
  | nil => simp [insertEntry, SortedByAverageDesc]
  | cons x xs ih =>
    rcases (List.pairwise_cons.mp hs) with ⟨hx, hxs⟩
    by_cases h : x.average < e.average
    · have hcons : SortedByAverageDesc (e :: x :: xs) := by
        refine List.pairwise_cons.mpr ⟨?_, hs⟩
        intro b hb
        rcases List.mem_cons.mp hb with rfl | hb
        · exact le_of_lt h
        · exact le_trans (hx b hb) (le_of_lt h)
      simpa [insertEntry, h] using hcons
    · have he : e.average ≤ x.average := le_of_not_lt h
      have : SortedByAverageDesc (x :: insertEntry xs e) := by
        refine List.pairwise_cons.mpr ⟨?_, ih hxs⟩
        intro b hb
        rcases mem_insertEntry.mp hb with hb | rfl
        · exact hx b hb
        · exact he
      simpa [insertEntry, h] using this

theorem length_insertEntry (l : List AggregatedEntry) (e : AggregatedEntry) :
    (insertEntry l e).length = l.length + 1 := by
  induction l with
  | nil => rfl
  | cons x xs ih =>
    by_cases h : x.average < e.average
    · simp [insertEntry, h]
    · simp [insertEntry, h, ih]

theorem length_foldl_insertEntry (l acc : List AggregatedEntry) :
    (l.foldl insertEntry acc).length = acc.length + l.length := by
  induction l generalizing acc with
  | nil => simp
  | cons e l ih => simp [List.foldl_cons, ih, length_insertEntry]; omega

theorem sortedByAverageDesc_foldl_insertEntry (l : List AggregatedEntry)
    {acc : List AggregatedEntry} (hs : SortedByAverageDesc acc) :
    SortedByAverageDesc (l.foldl insertEntry acc) := by
  induction l generalizing acc with
  | nil => exact hs
  | cons e l ih => exact ih (sortedByAverageDesc_insertEntry hs e)

theorem filter_insertEntry_of_ne {e : AggregatedEntry} {q : ℚ}
    (hq : ¬ e.average = q) (l : List AggregatedEntry) :
    (insertEntry l e).filter (fun a => decide (a.average = q))
      = l.filter (fun a => decide (a.average = q)) := by
  induction l with
  | nil => simp [insertEntry, hq]
  | cons x xs ih =>
    by_cases h : x.average < e.average
    · simp [insertEntry, h, hq]
    · simp only [insertEntry, if_neg h, List.filter_cons]
      rw [ih]

theorem filter_eq_nil_of_head_lt {x : AggregatedEntry} {xs : List AggregatedEntry} {q : ℚ}
    (hs : SortedByAverageDesc (x :: xs)) (hx : x.average < q) :
    (x :: xs).filter (fun a => decide (a.average = q)) = [] := by
  rw [List.filter_eq_nil_iff]
  intro a ha
  rcases (List.pairwise_cons.mp hs) with ⟨hall, _⟩
  rcases List.mem_cons.mp ha with rfl | ha
  · simpa using ne_of_lt hx
  · have : a.average ≤ x.average := hall a ha
    simpa using ne_of_lt (lt_of_le_of_lt this hx)

theorem filter_insertEntry_of_eq {e : AggregatedEntry} {q : ℚ}
    (hq : e.average = q) {l : List AggregatedEntry} (hs : SortedByAverageDesc l) :
    (insertEntry l e).filter (fun a => decide (a.average = q))
      = l.filter (fun a => decide (a.average = q)) ++ [e] := by
  induction l with
  | nil => simp [insertEntry, hq]
  | cons x xs ih =>
    by_cases h : x.average < e.average
    · have hnil : (x :: xs).filter (fun a => decide (a.average = q)) = [] :=
        filter_eq_nil_of_head_lt hs (hq ▸ h)
      simp only [insertEntry, if_pos h]
      rw [List.filter_cons, hnil]
      simp [hq]
    · simp only [insertEntry, if_neg h, List.filter_cons]
      rcases (List.pairwise_cons.mp hs) with ⟨_, hxs⟩
      rw [ih hxs]
      by_cases hx : x.average = q <;> simp [hx]

theorem filter_foldl_insertEntry (l : List AggregatedEntry) {acc : List AggregatedEntry}
    (hs : SortedByAverageDesc acc) (q : ℚ) :
    (l.foldl insertEntry acc).filter (fun a => decide (a.average = q))
      = acc.filter (fun a => decide (a.average = q))
        ++ l.filter (fun a => decide (a.average = q)) := by
  induction l generalizing acc with
  | nil => simp
  | cons e l ih =>
    simp only [List.foldl_cons, List.filter_cons]
    rw [ih (sortedByAverageDesc_insertEntry hs e)]
    by_cases he : e.average = q
    · rw [filter_insertEntry_of_eq he hs]
      simp [he]
    · rw [filter_insertEntry_of_ne he]
      simp [he]

/-- C1. The aggregation in `renderFromCSV` (script.js lines 52-60)
produces exactly one entry per loaded CSV row, sorted so that the
averages are non-increasing, and rows of equal average keep their
input-relative order (the sort is stable): for every rational `q`, the
subsequence of entries whose average equals `q` is exactly the
subsequence of mapped input rows whose average equals `q`. -/
theorem yearlyAverages_length_sorted_stable (data : List RawRecord) :
    (yearlyAverages data).length = data.length
      ∧ SortedByAverageDesc (yearlyAverages data)
      ∧ ∀ q : ℚ,
          (yearlyAverages data).filter (fun a => decide (a.average = q))
            = (data.map toEntry).filter (fun a => decide (a.average = q)) := by
  refine ⟨?_, ?_, ?_⟩
  · rw [yearlyAverages, sortDescStable, length_foldl_insertEntry]
    simp
  · exact sortedByAverageDesc_foldl_insertEntry _ (by simp [SortedByAverageDesc])
  · intro q
    rw [yearlyAverages, sortDescStable,
      filter_foldl_insertEntry _ (by simp [SortedByAverageDesc]) q]
    simp

/-- C2. For every CSV row, the average equals the sum of the twelve
coerced monthly cells divided by 12; replacing every cell by its coerced
value before aggregating changes nothing; and a row whose twelve cells
are all missing or non-numeric has average exactly 0. -/
theorem average_coerces_and_all_missing_zero (r : RawRecord) :
    (toEntry r).average = (∑ i : Fin 12, coerceMonth (r.months i)) / 12
      ∧ toEntry { district := r.district, months := fun i => some (coerceMonth (r.months i)) }
          = toEntry r
      ∧ ((∀ i, r.months i = none) → (toEntry r).average = 0) := by
  have hsum : ∀ g : Fin 12 → Option ℚ,
      (monthsIdx.foldl (fun sum m => sum + coerceMonth (g m)) 0)
        = ∑ i : Fin 12, coerceMonth (g i) := by
    intro g
    rw [Fin.sum_univ_def, List.sum_eq_foldl, List.foldl_map]
    rfl
  have hval : ∀ g : Fin 12 → Option ℚ,
      (toEntry { district := r.district, months := g }).average
        = (monthsIdx.foldl (fun sum m => sum + coerceMonth (g m)) 0)
          / (monthsIdx.length : ℚ) := fun g => rfl
  refine ⟨?_, ?_, ?_⟩
  · have h1 : (toEntry r).average
        = (monthsIdx.foldl (fun sum m => sum + coerceMonth (r.months m)) 0)
          / (monthsIdx.length : ℚ) := rfl
    rw [h1, hsum]
    norm_num [monthsIdx, List.length_finRange]
  · simp [toEntry, coerceMonth]
  · intro hnone
    have h1 : (toEntry r).average
        = (monthsIdx.foldl (fun sum m => sum + coerceMonth (r.months m)) 0)
          / (monthsIdx.length : ℚ) := rfl
    rw [h1, hsum]
    simp [hnone, coerceMonth]

/-- Witness for C2 at a concrete all-missing row. -/
theorem average_all_missing_witness :
    (toEntry { district := "Belize", months := fun _ => none }).average = 0 :=
  (average_coerces_and_all_missing_zero
    { district := "Belize", months := fun _ => none }).2.2 (fun _ => rfl)

/-- Inner drawing width, 900 minus the left (80) and right (30) margins
(script.js lines 14-15). -/
def width : ℚ := 900 - 80 - 30

/-- Inner drawing height, 500 minus the top (60) and bottom (80) margins
(script.js lines 14-16). -/
def height : ℚ := 500 - 60 - 80

/-- A two-point `d3.scaleLinear` with domain `[d0, d1]` and range
`[r0, r1]` (d3-scale `continuous.js`, `normalize` composed with
`interpolateNumber`). When the domain is degenerate (`d1 - d0 = 0`) d3's
`normalize` returns the constant `1/2`, so every input maps to the
midpoint of the range. -/
def scaleLinear (d0 d1 r0 r1 v : ℚ) : ℚ :=
  if d1 - d0 = 0 then r0 + 1 / 2 * (r1 - r0)
  else r0 + (v - d0) / (d1 - d0) * (r1 - r0)

/-- The value-scale domain upper bound
`d3.max(yearlyAverages, d => d.average) * 1.15` (script.js line 77).
`none` models `undefined * 1.15 = NaN`, which `d3.max` yields on an empty
entry list. -/
def yDomainUpper (entries : List AggregatedEntry) : Option ℚ :=
  ((entries.map AggregatedEntry.average).max?).map (fun m => m * 1.15)

/-- The value scale `y` (script.js lines 76-78): linear, domain
`[0, 1.15 * max average]`, range `[height, 0]`. The output is `none` when
the domain upper bound is the `NaN` of an empty data set. -/
def yScale (entries : List AggregatedEntry) (v : ℚ) : Option ℚ :=
  (yDomainUpper entries).map (fun upper => scaleLinear 0 upper height 0 v)

/-- C3. The renderer's value scale is the linear map `[0, 1.15 * max]` to
`[height, 0]`: whenever the domain is proper (`0 < u`) the pixel value is
`height - (v / u) * height`; and for every value in the domain
(`0 ≤ v ≤ u`, including the degenerate `u = 0` case) the scale sends `v`
to a y no larger than the y of `0`, so higher values never map below the
baseline. -/
theorem yScale_linear_monotone (entries : List AggregatedEntry) (u v : ℚ)
    (hu : yDomainUpper entries = some u) (h0 : 0 ≤ v) (hv : v ≤ u) :
    (0 < u → yScale entries v = some (height - v / u * height))
      ∧ ∃ py p0, yScale entries v = some py ∧ yScale entries 0 = some p0 ∧ py ≤ p0 := by
  have hyv : yScale entries v = some (scaleLinear 0 u height 0 v) := by
    rw [yScale, hu]
    rfl
  have hy0 : yScale entries 0 = some (scaleLinear 0 u height 0 0) := by
    rw [yScale, hu]
    rfl
  constructor
  · intro hupos
    rw [hyv, scaleLinear, if_neg (by simpa using ne_of_gt hupos)]
    ring_nf
  · refine ⟨_, _, hyv, hy0, ?_⟩
    by_cases hz : u - 0 = 0
    · rw [scaleLinear, if_pos hz, scaleLinear, if_pos hz]
    · have hupos : 0 < u := lt_of_le_of_ne (le_trans h0 hv) (by simpa [eq_comm] using hz)
      rw [scaleLinear, if_neg hz, scaleLinear, if_neg hz]
      have hh : (0 : ℚ) ≤ height := by norm_num [height]
      have hnn : 0 ≤ (v - 0) / (u - 0) * height := by
        apply mul_nonneg (div_nonneg (by linarith) (by linarith)) hh
      have hzr : (0 - 0) / (u - 0) * (0 - height) = 0 := by norm_num
      have hneg : (v - 0) / (u - 0) * (0 - height) = -((v - 0) / (u - 0) * height) := by ring
      rw [hzr, hneg]
      linarith

/-- Witness for C3 on the single entry `⟨"Corozal", 10⟩`, whose domain
upper bound is `10 * 1.15 = 23/2`. -/
theorem yScale_linear_monotone_witness :
    yScale [⟨"Corozal", 10⟩] 10 = some (height - 10 / (23 / 2) * height) :=
  (yScale_linear_monotone [⟨"Corozal", 10⟩] (23 / 2) 10
    (by simp [yDomainUpper, List.max?]; norm_num) (by norm_num) (by norm_num)).1
    (by norm_num)

/-- The one-row data set whose only district has twelve explicit zeros. -/
def dataAllZero : List RawRecord :=
  [{ district := "Corozal", months := fun _ => some 0 }]

/-- C4 (code bug). On an all-zero data set the maximum average is `0`, so
the y-scale domain collapses to `[0, 0]`; the code neither substitutes a
positive epsilon nor zero-height bars: d3's degenerate-domain rule maps
every value to the range midpoint `height / 2 = 180`, so the zero-value
bar is drawn with the strictly positive height `height - 180 = 180`. -/
theorem yScale_zero_max_half_height_bar :
    yearlyAverages dataAllZero = [⟨"Corozal", 0⟩]
      ∧ yDomainUpper (yearlyAverages dataAllZero) = some 0
      ∧ yScale (yearlyAverages dataAllZero) 0 = some 180
      ∧ height - 180 = 180
      ∧ (180 : ℚ) ≠ 0 := by
  have h1 : yearlyAverages dataAllZero = [⟨"Corozal", 0⟩] := by
    simp [yearlyAverages, dataAllZero, toEntry, monthsIdx_eq, coerceMonth,
      sortDescStable, insertEntry]
  have h2 : yDomainUpper [(⟨"Corozal", 0⟩ : AggregatedEntry)] = some 0 := by
    simp [yDomainUpper, List.max?]
  have h3 : yScale [(⟨"Corozal", 0⟩ : AggregatedEntry)] 0 = some 180 := by
    rw [yScale, h2]
    norm_num [scaleLinear, height]
  exact ⟨h1, by rw [h1]; exact h2, by rw [h1]; exact h3, by norm_num [height], by norm_num⟩

/-- Geometry of `d3.scaleBand().range([0, width]).padding(0.3)` (script.js
lines 68-71; d3-scale `band.js`, `rescale`): with `paddingInner =
paddingOuter = 0.3` and `align = 0.5`, the slot step is
`width / max(1, n - 0.3 + 0.6)`. -/
def bandStep (n : ℕ) : ℚ := width / max 1 ((n : ℚ) - 0.3 + 2 * 0.3)

/-- The first slot's start, `(width - step * (n - paddingInner)) * align`. -/
def bandStart (n : ℕ) : ℚ := (width - bandStep n * ((n : ℚ) - 0.3)) * 0.5

/-- The bar width `x.bandwidth() = step * (1 - paddingInner)`. -/
def bandwidth (n : ℕ) : ℚ := bandStep n * (1 - 0.3)

/-- The categorical scale `x` (script.js lines 68-71): a district's slot
position is determined by its index in the domain list (the districts of
`yearlyAverages`, in sorted order). -/
def xScale (domain : List String) (d : String) : ℚ :=
  bandStart domain.length + bandStep domain.length * (domain.indexOf d : ℚ)

/-- One element appended to the chart group by `renderFromCSV`, tagged the
way the tear-down selectors see it: `grid`, `x axis`, `y axis`, `bar`,
`label` (the value labels), `axis-label` (the two axis captions,
script.js lines 196-215) and `error-msg`; the title text (script.js lines
219-226) carries no class at all. Bars and value labels carry their
geometry; an attribute that would be `NaN` in JS is `none`; the
`toFixed(1)` string formatting of the label text is host-environment
number formatting and is represented by the labelled average itself. -/
inductive SvgElem where
  | grid
  | bar (district : String) (x : ℚ) (yPos : Option ℚ) (w : ℚ) (h : Option ℚ)
  | xAxis
  | yAxis
  | axisLabel (text : String)
  | title (text : String)
  | valueLabel (district : String) (x : ℚ) (yPos : Option ℚ) (average : ℚ)
  | errorMsg (x yPos : ℚ) (text : String)
deriving DecidableEq

/-- Does the success-path tear-down selector
`'.grid, .x.axis, .y.axis, .bar, .label, .data-file-label, .error-msg'`
(script.js line 35) match the element? The `axis-label` captions and the
class-less title do not match any listed class (`.label` matches only the
exact class token `label`), so they survive. No element of class
`data-file-label` is ever created by this script. -/
def matchesTeardown : SvgElem → Bool
  | .grid | .bar .. | .xAxis | .yAxis | .valueLabel .. | .errorMsg .. => true
  | .axisLabel _ | .title _ => false

/-- Does the failure-path selector `'.grid, .x.axis, .y.axis, .bar,
.label'` (script.js line 248) match? It omits `.error-msg` (and the
captions and title) as well. -/
def matchesCatchTeardown : SvgElem → Bool
  | .grid | .bar .. | .xAxis | .yAxis | .valueLabel .. => true
  | .axisLabel _ | .title _ | .errorMsg .. => false

/-- The elements appended by the success path, in document order:
gridlines (line 83), one bar group per entry (lines 110-127), x axis
(line 178), y axis (line 190), the two axis captions (lines 196-215), the
title (line 219), and one value label per entry (lines 231-242). -/
def drawnElems (entries : List AggregatedEntry) : List SvgElem :=
  let domain := entries.map AggregatedEntry.district
  let n := domain.length
  [SvgElem.grid]
    ++ entries.map (fun e =>
        SvgElem.bar e.district (xScale domain e.district) (yScale entries e.average)
          (bandwidth n) ((yScale entries e.average).map (fun py => height - py)))
    ++ [SvgElem.xAxis, SvgElem.yAxis,
        SvgElem.axisLabel "Average Monthly Rainfall (mm)",
        SvgElem.axisLabel "Districts of Belize",
        SvgElem.title "Average Monthly Rainfall by District in Belize"]
    ++ entries.map (fun e =>
        SvgElem.valueLabel e.district (xScale domain e.district + bandwidth n / 2)
          ((yScale entries e.average).map (fun py => py - 10)) e.average)

/-- The `.then` branch of `renderFromCSV` (script.js lines 32-242): remove
the elements matched by the tear-down selector, then append the new
drawing built from the loaded rows. -/
def renderSuccess (surface : List SvgElem) (data : List RawRecord) : List SvgElem :=
  surface.filter (fun el => ! matchesTeardown el) ++ drawnElems (yearlyAverages data)

/-- The `.catch` branch of `renderFromCSV` (script.js lines 244-258):
remove grid, axes, bars and value labels, then append one centered error
text naming the file. -/
def renderFailure (surface : List SvgElem) (csvFile : String) : List SvgElem :=
  surface.filter (fun el => ! matchesCatchTeardown el)
    ++ [SvgElem.errorMsg (width / 2) (height / 2) ("Failed to load " ++ csvFile)]

def isTitle : SvgElem → Bool
  | .title _ => true
  | _ => false

def isAxisLabel : SvgElem → Bool
  | .axisLabel _ => true
  | _ => false

def isErrorMsg : SvgElem → Bool
  | .errorMsg .. => true
  | _ => false

def isBar : SvgElem → Bool
  | .bar .. => true
  | _ => false

/-- The bar elements of a surface, in document order. -/
def barsOf (s : List SvgElem) : List SvgElem := s.filter isBar

/-- The districts of the bars of a surface, in document order. -/
def barDistricts (s : List SvgElem) : List String :=
  s.filterMap (fun el => match el with
    | .bar d _ _ _ _ => some d
    | _ => none)

/-- A one-row data set with a constant 10 mm month. -/
def dataCorozal10 : List RawRecord :=
  [{ district := "Corozal", months := fun _ => some 10 }]

/-- The 2024 file's one-row data set, a district name distinct from the
2025 one. -/
def dataCorozal2024 : List RawRecord :=
  [{ district := "Corozal 2024", months := fun _ => some 20 }]

theorem yearlyAverages_dataCorozal10 :
    yearlyAverages dataCorozal10 = [⟨"Corozal", 10⟩] := by
  simp [yearlyAverages, dataCorozal10, toEntry, monthsIdx_eq, coerceMonth,
    sortDescStable, insertEntry]
  norm_num

theorem yearlyAverages_dataCorozal2024 :
    yearlyAverages dataCorozal2024 = [⟨"Corozal 2024", 20⟩] := by
  simp [yearlyAverages, dataCorozal2024, toEntry, monthsIdx_eq, coerceMonth,
    sortDescStable, insertEntry]
  norm_num

/-- C5 (code bug). Re-rendering the same source is idempotent on the bars
(same count, order and geometry), but the tear-down selector of line 35
names neither the `axis-label` captions nor the class-less title, so
these accumulate: after the second render the surface holds two titles
and four axis captions instead of one and two. -/
theorem rerender_accumulates_title_and_axis_labels :
    barsOf (renderSuccess (renderSuccess [] dataCorozal10) dataCorozal10)
        = barsOf (renderSuccess [] dataCorozal10)
      ∧ ((renderSuccess [] dataCorozal10).filter isTitle).length = 1
      ∧ ((renderSuccess (renderSuccess [] dataCorozal10) dataCorozal10).filter
          isTitle).length = 2
      ∧ ((renderSuccess [] dataCorozal10).filter isAxisLabel).length = 2
      ∧ ((renderSuccess (renderSuccess [] dataCorozal10) dataCorozal10).filter
          isAxisLabel).length = 4 := by
  refine ⟨?_, ?_, ?_, ?_, ?_⟩ <;>
    simp [renderSuccess, drawnElems, yearlyAverages_dataCorozal10, barsOf,
      matchesTeardown, isTitle, isAxisLabel, isBar]

/-- Outcome of one `d3.csv` fetch: the parsed rows, or a load / parse
error. -/
inductive FetchResult where
  | ok (rows : List RawRecord)
  | failed

/-- What the continuation installed by `renderFromCSV csvFile` does when
that fetch settles (script.js lines 32-258). It consults nothing but its
own arguments: there is no generation counter, request tag, or any other
stale-response guard in the script. -/
def onFetchSettled (surface : List SvgElem) (c : String × FetchResult) : List SvgElem :=
  match c.2 with
  | .ok rows => renderSuccess surface rows
  | .failed => renderFailure surface c.1

/-- The surface after a sequence of fetch completions, processed in
arrival order by the browser event loop. -/
def runCompletions (cs : List (String × FetchResult)) : List SvgElem :=
  cs.foldl onFetchSettled []

/-- C6 (code bug). `renderFromCSV` installs its continuation with no
stale-response guard, so completions are applied in arrival order: when
`data.csv` is requested, then `data2024.csv` is requested, and the older
fetch settles last, the final surface shows the `data.csv` bars although
the last requested source is `data2024.csv` (whose render would show the
`Corozal 2024` bar). -/
theorem stale_fetch_overwrites_last_requested :
    barDistricts (runCompletions
        [("data2024.csv", FetchResult.ok dataCorozal2024),
         ("data.csv", FetchResult.ok dataCorozal10)]) = ["Corozal"]
      ∧ barDistricts (drawnElems (yearlyAverages dataCorozal2024)) = ["Corozal 2024"]
      ∧ ("Corozal" : String) ≠ "Corozal 2024" := by
  refine ⟨?_, ?_, by decide⟩
  · simp [runCompletions, onFetchSettled, renderSuccess, drawnElems,
      yearlyAverages_dataCorozal10, yearlyAverages_dataCorozal2024,
      barDistricts, matchesTeardown]
  · simp [drawnElems, yearlyAverages_dataCorozal2024, barDistricts]

/-- C7 (code bug). The catch handler (script.js lines 244-258) does clear
grid, axes, bars and value labels and does append one centered error text
naming the failed file; but its selector omits `.error-msg` itself as
well as the captions and title, so a failure does not clear all
previously drawn elements: two consecutive failures leave two stacked
error messages, and a failure after a successful render leaves the old
title (and captions) standing. -/
theorem consecutive_failures_accumulate_error_msgs :
    renderFailure [] "data.csv"
        = [SvgElem.errorMsg (width / 2) (height / 2) "Failed to load data.csv"]
      ∧ ((renderFailure (renderFailure [] "data.csv") "data.csv").filter
          isErrorMsg).length = 2
      ∧ ((renderFailure (renderSuccess [] dataCorozal10) "data2024.csv").filter
          isTitle).length = 1
      ∧ barsOf (renderFailure (renderSuccess [] dataCorozal10) "data2024.csv") = [] := by
  refine ⟨?_, ?_, ?_, ?_⟩ <;>
    simp [renderFailure, renderSuccess, drawnElems, yearlyAverages_dataCorozal10,
      matchesCatchTeardown, matchesTeardown, isErrorMsg, isTitle, barsOf, isBar]

/-- Outcome of an export entry point as seen by the user: a file download
is offered, a blocking `alert` is shown, or an exception escapes the
handler. -/
inductive ExportOutcome where
  | downloadedFile (filename : String)
  | alerted (message : String)
  | threw (message : String)
deriving DecidableEq

def isUserAlert : ExportOutcome → Bool
  | .alerted _ => true
  | _ => false

def isThrown : ExportOutcome → Bool
  | .threw _ => true
  | _ => false

def isDownload : ExportOutcome → Bool
  | .downloadedFile _ => true
  | _ => false

/-- The `downloadSVG` entry point (script.js lines 262-348).
`document.getElementById('chart')` is used with no null check, so when no
chart SVG element exists the very next line `svg.cloneNode(true)` throws
a `TypeError`; otherwise the styled clone is serialized and offered as
`belize-rainfall-<selected year>.svg`. -/
def downloadSVG (chartSvg : Option (List SvgElem)) (selectedYear : String) : ExportOutcome :=
  match chartSvg with
  | none => .threw "TypeError: svg is null"
  | some _ => .downloadedFile ("belize-rainfall-" ++ selectedYear ++ ".svg")

/-- Outcome of the vector-to-raster conversion inside `downloadJPG`:
the intermediate image decodes and the canvas pipeline succeeds, the
canvas pipeline throws (`img.onload`'s try block), or the image fails to
decode (`img.onerror`). -/
inductive RasterOutcome where
  | success
  | canvasThrew
  | decodeFailed
deriving DecidableEq

/-- The `downloadJPG` entry point (script.js lines 351-435), coarsely: the
missing-element guard of lines 353-357 alerts and returns, and otherwise
the outcome of the conversion decides between a `.jpg` download and an
error alert (lines 395-432). -/
def downloadJPG (chartSvg : Option (List SvgElem)) (selectedYear : String)
    (conv : RasterOutcome) : ExportOutcome :=
  match chartSvg with
  | none => .alerted "Chart element not found for JPG export."
  | some _ =>
    match conv with
    | .success => .downloadedFile ("belize-rainfall-" ++ selectedYear ++ ".jpg")
    | .canvasThrew => .alerted "Error generating JPG. Please try again or use the SVG download option."
    | .decodeFailed => .alerted "Error loading the chart for JPG conversion. Please try again."

/-- C8 counterexample. Triggering the vector export with no chart element
present does not produce a user-visible notification: it throws. -/
theorem downloadSVG_missing_target_throws_cex :
    isUserAlert (downloadSVG none "2025") = false
      ∧ isThrown (downloadSVG none "2025") = true
      ∧ isDownload (downloadSVG none "2025") = false := by
  refine ⟨rfl, rfl, rfl⟩

/-- C8 amended. With no chart element, the raster export (`downloadJPG`)
no-ops with a user-visible alert and downloads nothing, whatever the
conversion would have done; the vector export (`downloadSVG`) has no such
guard and throws a `TypeError` instead of notifying, downloading
nothing. -/
theorem export_missing_target_behavior (selectedYear : String) (conv : RasterOutcome) :
    downloadJPG none selectedYear conv = ExportOutcome.alerted "Chart element not found for JPG export."
      ∧ isDownload (downloadJPG none selectedYear conv) = false
      ∧ isThrown (downloadJPG none selectedYear conv) = false
      ∧ downloadSVG none selectedYear = ExportOutcome.threw "TypeError: svg is null"
      ∧ isDownload (downloadSVG none selectedYear) = false
      ∧ isUserAlert (downloadSVG none selectedYear) = false := by
  refine ⟨rfl, rfl, rfl, rfl, rfl, rfl⟩

/-- The canvas configuration performed inside `img.onload` before the JPEG
encoding (script.js lines 397-411). -/
structure RasterParams where
  scaleFactor : ℚ
  canvasWidth : ℚ
  canvasHeight : ℚ
  backgroundFill : String
  jpegQuality : ℚ
deriving DecidableEq

/-- The observable effects of one run of the `img.onload` / `img.onerror`
continuations of `downloadJPG` (script.js lines 395-432). -/
structure JpgRun where
  rasterized : Option RasterParams
  downloadedFileName : Option String
  alertMessage : Option String
  objectUrlRevoked : Bool
  displayedSurface : List SvgElem

/-- The `img.onload` / `img.onerror` continuations of `downloadJPG`
(script.js lines 395-432), run against a clone of the displayed SVG:
on load, a canvas of twice the SVG's pixel size is created, filled with
opaque white, the image is drawn into it and encoded as JPEG at quality
0.95, and the file is offered as `belize-rainfall-<year>.jpg`; a throw in
that block alerts instead; either way the `finally` clause revokes the
blob URL. On a decode error, an alert is shown and the blob URL is
revoked. The displayed surface is never touched. -/
def runJpgConversion (svgWidth svgHeight : ℚ) (selectedYear : String)
    (displayed : List SvgElem) : RasterOutcome → JpgRun
  | .success =>
    { rasterized := some
        { scaleFactor := 2, canvasWidth := svgWidth * 2, canvasHeight := svgHeight * 2,
          backgroundFill := "#ffffff", jpegQuality := 0.95 }
      downloadedFileName := some ("belize-rainfall-" ++ selectedYear ++ ".jpg")
      alertMessage := none
      objectUrlRevoked := true
      displayedSurface := displayed }
  | .canvasThrew =>
    { rasterized := some
        { scaleFactor := 2, canvasWidth := svgWidth * 2, canvasHeight := svgHeight * 2,
          backgroundFill := "#ffffff", jpegQuality := 0.95 }
      downloadedFileName := none
      alertMessage := some "Error generating JPG. Please try again or use the SVG download option."
      objectUrlRevoked := true
      displayedSurface := displayed }
  | .decodeFailed =>
    { rasterized := none
      downloadedFileName := none
      alertMessage := some "Error loading the chart for JPG conversion. Please try again."
      objectUrlRevoked := true
      displayedSurface := displayed }

/-- C9. Whatever the conversion outcome, the blob URL is revoked; every
performed rasterization uses the 2x pixel density, the opaque white
background and JPEG quality 0.95; on failure a user-visible alert is
shown and nothing is downloaded; on success the named `.jpg` download is
offered; and the displayed surface — hence the vector export path reading
it — is unaffected. -/
theorem downloadJPG_conversion_resources (svgWidth svgHeight : ℚ)
    (selectedYear : String) (displayed : List SvgElem) (conv : RasterOutcome) :
    (runJpgConversion svgWidth svgHeight selectedYear displayed conv).objectUrlRevoked = true
      ∧ (∀ p, (runJpgConversion svgWidth svgHeight selectedYear displayed conv).rasterized = some p →
          p.scaleFactor = 2 ∧ p.canvasWidth = svgWidth * 2 ∧ p.canvasHeight = svgHeight * 2
            ∧ p.backgroundFill = "#ffffff" ∧ p.jpegQuality = 0.95)
      ∧ (conv ≠ RasterOutcome.success →
          (runJpgConversion svgWidth svgHeight selectedYear displayed conv).alertMessage.isSome = true
            ∧ (runJpgConversion svgWidth svgHeight selectedYear displayed conv).downloadedFileName = none)
      ∧ (conv = RasterOutcome.success →
          (runJpgConversion svgWidth svgHeight selectedYear displayed conv).downloadedFileName
            = some ("belize-rainfall-" ++ selectedYear ++ ".jpg"))
      ∧ (runJpgConversion svgWidth svgHeight selectedYear displayed conv).displayedSurface
          = displayed
      ∧ downloadSVG (some ((runJpgConversion svgWidth svgHeight selectedYear
            displayed conv).displayedSurface)) selectedYear
          = downloadSVG (some displayed) selectedYear := by
  cases conv <;>
    refine ⟨rfl, ?_, ?_, ?_, rfl, rfl⟩ <;>
      simp [runJpgConversion]

/-- Witness for C9 at concrete inputs, discharging both conditional
conjuncts: the failing decode alerts, downloads nothing and still
revokes; the successful conversion downloads the named file. -/
theorem downloadJPG_conversion_resources_witness :
    ((runJpgConversion 900 500 "2025" [] RasterOutcome.decodeFailed).alertMessage.isSome = true
        ∧ (runJpgConversion 900 500 "2025" [] RasterOutcome.decodeFailed).downloadedFileName = none)
      ∧ (runJpgConversion 900 500 "2025" [] RasterOutcome.decodeFailed).objectUrlRevoked = true
      ∧ (runJpgConversion 900 500 "2025" [] RasterOutcome.success).downloadedFileName
          = some "belize-rainfall-2025.jpg" :=
  ⟨(downloadJPG_conversion_resources 900 500 "2025" [] RasterOutcome.decodeFailed).2.2.1
      (by intro h; cases h),
    (downloadJPG_conversion_resources 900 500 "2025" [] RasterOutcome.decodeFailed).1,
    (downloadJPG_conversion_resources 900 500 "2025" [] RasterOutcome.success).2.2.2.1 rfl⟩

/-- The `height` attributes of the bar rectangles of a surface, in
document order (`height - y(d.average)`, script.js line 124). -/
def barHeights (s : List SvgElem) : List (Option ℚ) :=
  s.filterMap (fun el => match el with
    | .bar _ _ _ _ h => some h
    | _ => none)

/-- A data set containing a negative numeric cell: `+"-1" || 0` keeps
`-1`, so the coercion of script.js line 46 does not exclude negative
values and the `Dry` row averages to `-1`. -/
def dataNegative : List RawRecord :=
  [{ district := "Wet", months := fun _ => some 12 },
   { district := "Dry", months := fun _ => some (-1) }]

theorem yearlyAverages_dataNegative :
    yearlyAverages dataNegative = [⟨"Wet", 12⟩, ⟨"Dry", -1⟩] := by
  norm_num [yearlyAverages, dataNegative, toEntry, monthsIdx_eq, coerceMonth,
    sortDescStable, insertEntry]

/-- C10 counterexample. With one positive-average entry present
(`Wet`, average 12), the entry of negative average `-1` — reachable from
a CSV whose cells are the numeric string `"-1"` — is rendered as a bar of
strictly negative height `-600/23`: the computed rectangle height is not
non-negative for every rendered bar. -/
theorem negative_average_bar_height_cex :
    yearlyAverages dataNegative = [⟨"Wet", 12⟩, ⟨"Dry", -1⟩]
      ∧ ((yearlyAverages dataNegative).any (fun e => decide (0 < e.average))) = true
      ∧ barHeights (drawnElems (yearlyAverages dataNegative))
          = [some (7200 / 23), some (-(600 / 23))]
      ∧ (-(600 / 23) : ℚ) < 0 := by
  have h1 := yearlyAverages_dataNegative
  have hu : yDomainUpper ([⟨"Wet", 12⟩, ⟨"Dry", -1⟩] : List AggregatedEntry)
      = some (69 / 5) := by
    simp [yDomainUpper, List.max?]
    norm_num [max_eq_left]
  have hyW : yScale ([⟨"Wet", 12⟩, ⟨"Dry", -1⟩] : List AggregatedEntry) 12
      = some (1080 / 23) := by
    simp only [yScale, hu, Option.map_some']
    norm_num [scaleLinear, height]
  have hyD : yScale ([⟨"Wet", 12⟩, ⟨"Dry", -1⟩] : List AggregatedEntry) (-1)
      = some (8880 / 23) := by
    simp only [yScale, hu, Option.map_some']
    norm_num [scaleLinear, height]
  refine ⟨h1, ?_, ?_, by norm_num⟩
  · rw [h1]
    simp [List.any]
  · rw [h1]
    simp [barHeights, drawnElems, hyW, hyD]
    norm_num [height]

theorem le_of_mem_max? {l : List ℚ} {m x : ℚ} (h : l.max? = some m) (hx : x ∈ l) :
    x ≤ m :=
  (List.max?_le_iff (fun _ _ _ => max_le_iff) h).mp (le_refl m) x hx

/-- C10 amended. Whenever some entry has a strictly positive average, the
scale's domain upper bound `u = 1.15 * max` is strictly positive, and
every rendered bar whose entry's average is non-negative (as is the case
whenever all coerced monthly cells are non-negative) has non-negative
computed height `height - y(average)`; an entry of negative average,
reachable through negative numeric CSV cells, escapes this bound. -/
theorem bar_height_nonneg_of_nonneg_average (data : List RawRecord)
    (e e' : AggregatedEntry) (he : e ∈ yearlyAverages data)
    (he' : e' ∈ yearlyAverages data) (hpos : 0 < e'.average)
    (havg : 0 ≤ e.average) (u : ℚ)
    (hu : yDomainUpper (yearlyAverages data) = some u) :
    0 < u ∧ ∃ py, yScale (yearlyAverages data) e.average = some py
        ∧ 0 ≤ height - py := by
  rw [yDomainUpper] at hu
  obtain ⟨m, hm, hum⟩ := Option.map_eq_some'.mp hu
  have hm_pos : 0 < m :=
    lt_of_lt_of_le hpos (le_of_mem_max? hm (List.mem_map_of_mem _ he'))
  have hu_pos : 0 < u := by
    rw [← hum]
    exact mul_pos hm_pos (by norm_num)
  refine ⟨hu_pos, ?_⟩
  have hval : yScale (yearlyAverages data) e.average
      = some (scaleLinear 0 u height 0 e.average) := by
    rw [yScale, yDomainUpper, hm]
    simp [hum]
  refine ⟨_, hval, ?_⟩
  rw [scaleLinear, if_neg (by simpa using ne_of_gt hu_pos)]
  have hexp : height - (height + (e.average - 0) / (u - 0) * (0 - height))
      = e.average / u * height := by ring
  rw [hexp]
  exact mul_nonneg (div_nonneg havg (le_of_lt hu_pos)) (by norm_num [height])

/-- Witness for the amended C10 on the one-district 10 mm data set, whose
domain upper bound is `23/2`: the rendered bar's computed height is
non-negative. -/
theorem bar_height_nonneg_witness :
    ((yScale (yearlyAverages dataCorozal10) 10).map
        (fun py => decide (0 ≤ height - py))).getD false = true := by
  obtain ⟨-, py, h1, h2⟩ :=
    bar_height_nonneg_of_nonneg_average dataCorozal10 ⟨"Corozal", 10⟩ ⟨"Corozal", 10⟩
      (by simp [yearlyAverages_dataCorozal10]) (by simp [yearlyAverages_dataCorozal10])
      (by norm_num) (by norm_num) (23 / 2)
      (by simp [yearlyAverages_dataCorozal10, yDomainUpper, List.max?]; norm_num)
  rw [h1]
  simp only [Option.map_some', Option.getD_some, decide_eq_true_eq]
  linarith

end Rainfall
